import Mathlib

/-
Verification of the metadata-extraction engine in helper/metadata.py.

The Python module is shallowly embedded: pure helpers become Lean functions
over explicit character lists and records, the external gallery_dl extractor
collaborator is modelled as an environment record (Env) that fixes the
outcomes of its effectful operations (URL pattern matching, initialization,
user lookup, the yielded item stream, cursor exposure), and Python exception
flow becomes Except: `Except.error` is a Python exception propagating to the
caller, `Except.ok` a normally returned value.
-/

-- ===== basic Python string operations, modelled on character lists =====

-- `needle` is a leading segment of `hay` (exact character equality)
def chars_start (needle hay : List Char) : Bool :=
  match needle, hay with
  | [], _ => true
  | _ :: _, [] => false
  | n :: ns, c :: cs => n == c && chars_start ns cs

-- Python substring containment: `needle in hay`
def chars_contain (needle : List Char) : List Char → Bool
  | [] => needle.isEmpty
  | c :: cs => chars_start needle (c :: cs) || chars_contain needle cs

def str_contains (hay needle : String) : Bool :=
  chars_contain needle.data hay.data

-- Python str.lower(); ASCII case folding (the module only lowercases
-- handles and error messages, which are ASCII)
def lower (s : String) : String :=
  String.mk (s.data.map Char.toLower)

-- Python str.startswith(token)
def py_startswith (s : String) (token : List Char) : Bool :=
  chars_start token s.data

-- Python str.lstrip(given a single char): remove every leading occurrence
def lstrip_char (ch : Char) (l : List Char) : List Char :=
  l.dropWhile (fun c => c == ch)

-- Python str.strip() whitespace set, restricted to ASCII whitespace
def py_ws (c : Char) : Bool :=
  c == ' ' || c == '\t' || c == '\n' || c == '\r' || c == '\x0b' || c == '\x0c'

def py_strip (s : String) : String :=
  String.mk ((((s.data.dropWhile py_ws).reverse).dropWhile py_ws).reverse)

-- ===== module constants (metadata.py lines 8-17) =====

def TWITTER_IMAGE_DOMAIN : String := "pbs.twimg.com"
def TWITTER_VIDEO_DOMAIN : String := "video.twimg.com"
def WITHHELD_ERROR_CODE : String := "withheld"
def ERROR_MSG_WITHHELD : String :=
  "Account withheld. Alternative version available at: https://www.patreon.com/exyezed"
def ERROR_MSG_AUTH_FAILED : String :=
  "Authentication failed. Verify your auth token is valid."
def ERROR_MSG_ACCOUNT_NOT_FOUND : String :=
  "Failed to fetch account information. Check the username and auth token."

-- ===== _parse_username (metadata.py lines 20-45) =====
-- The two URL regexes are embedded directly.  Both are applied with
-- re.match (prefix match from the string start) and re.IGNORECASE:
--   (?:https?://)?(?:www\.)?(?:x\.com|twitter\.com)/([^/?#]+)
--   (?:https?://)?(?:www\.)?(?:x\.com|twitter\.com)/@([^/?#]+)
-- The optional groups never need backtracking: a completed optional match
-- can never be the start of an alternative successful parse, because the
-- scheme, the www marker and the two domains all demand distinct
-- characters at their first position.

-- match a lowercase literal case-insensitively, returning the rest
def matchCI (lit s : List Char) : Option (List Char) :=
  match lit, s with
  | [], rest => some rest
  | _ :: _, [] => none
  | p :: ps, c :: cs => if c.toLower == p then matchCI ps cs else none

-- optional literal: consume it when present, otherwise leave s unchanged
def matchOpt (lit s : List Char) : List Char :=
  match matchCI lit s with
  | some rest => rest
  | none => s

-- (?:https?://)? — "http", an optional "s", then "://"
def match_scheme (s : List Char) : List Char :=
  match matchCI ['h', 't', 't', 'p'] s with
  | none => s
  | some r1 =>
    let r2 := match r1 with
      | c :: cs => if c.toLower == 's' then cs else r1
      | [] => r1
    match matchCI [':', '/', '/'] r2 with
    | some r3 => r3
    | none => s

-- (?:www\.)?
def match_www (s : List Char) : List Char :=
  matchOpt ['w', 'w', 'w', '.'] s

-- (?:x\.com|twitter\.com)/
def match_domain (s : List Char) : Option (List Char) :=
  match matchCI ['x', '.', 'c', 'o', 'm', '/'] s with
  | some rest => some rest
  | none => matchCI ['t', 'w', 'i', 't', 't', 'e', 'r', '.', 'c', 'o', 'm', '/'] s

def url_special (c : Char) : Bool :=
  c == '/' || c == '?' || c == '#'

-- ([^/?#]+) — the captured group: a maximal nonempty run
def group_after (s : List Char) : Option (List Char) :=
  let g := s.takeWhile (fun c => !url_special c)
  if g.isEmpty then none else some g

-- first URL pattern
def match_url_1 (s : List Char) : Option (List Char) :=
  match match_domain (match_www (match_scheme s)) with
  | some rest => group_after rest
  | none => none

-- second URL pattern (an explicit @ before the group)
def match_url_2 (s : List Char) : Option (List Char) :=
  match match_domain (match_www (match_scheme s)) with
  | some ('@' :: rest) => group_after rest
  | _ => none

def finish_username (g : List Char) : String :=
  String.mk ((lstrip_char '@' g).map Char.toLower)

def _parse_username (username_input : String) : String :=
  if py_startswith username_input ['i', 'd', ':'] then username_input
  else
    let t := py_strip username_input
    match match_url_1 t.data with
    | some g => finish_username g
    | none =>
      match match_url_2 t.data with
      | some g => finish_username g
      | none => finish_username t.data

-- ===== data model =====

-- a Python value stored under a date key: either a datetime instance or
-- any other value (the code formats datetimes and passes other values
-- through unchanged; non-datetime values are kept as their final string
-- rendering)
inductive PyDate where
  | dt (y mo d hh mi ss : Nat)
  | raw (s : String)
deriving DecidableEq, Repr

def pad2 (n : Nat) : String :=
  if n < 10 then "0" ++ toString n else toString n

def pad4 (n : Nat) : String :=
  if n < 10 then "000" ++ toString n
  else if n < 100 then "00" ++ toString n
  else if n < 1000 then "0" ++ toString n
  else toString n

-- _format_datetime (metadata.py lines 48-51): strftime("%Y-%m-%d %H:%M:%S")
def _format_datetime (v : PyDate) : String :=
  match v with
  | .dt y mo d hh mi ss =>
    pad4 y ++ "-" ++ pad2 mo ++ "-" ++ pad2 d ++ " " ++ pad2 hh ++ ":" ++ pad2 mi ++ ":" ++ pad2 ss
  | .raw s => s

-- raw user data handed to _build_account_info (a dict accessed with .get
-- and defaults); absent keys are none
structure UserData where
  name : Option String
  nick : Option String
  date : Option PyDate
  followers_count : Option Int
  friends_count : Option Int
  profile_image : Option String
  statuses_count : Option Int
deriving DecidableEq, Repr

-- tweet metadata dict: only the keys the module reads are modelled
structure TweetData where
  date : Option PyDate
  tweet_id : Option Int
  tweet_type : Option String -- the dict key named type
  retweet_id : Option Int    -- present key with value; Python truthiness is nonzero
  user : Option UserData
deriving DecidableEq, Repr

structure AccountInfo where
  name : String
  nick : String
  date : String
  followers_count : Int
  friends_count : Int
  profile_image : String
  statuses_count : Int
deriving DecidableEq, Repr

structure TimelineEntry where
  url : String
  date : String
  tweet_id : Int
  tweet_type : Option String -- key written only when present in the source dict
  retweet_id : Option Int    -- key written only for a truthy retweet id
  is_retweet : Bool
deriving DecidableEq, Repr

-- _build_timeline_entry (metadata.py lines 54-72); `now` stands for
-- datetime.now(), the default used when the date key is absent
def _build_timeline_entry (now : PyDate) (media_url : String) (tweet_data : TweetData) : TimelineEntry :=
  let rt_truthy := match tweet_data.retweet_id with
    | some n => !(n == 0)
    | none => false
  { url := media_url
    date := _format_datetime (tweet_data.date.getD now)
    tweet_id := tweet_data.tweet_id.getD 0
    tweet_type := tweet_data.tweet_type
    retweet_id := if rt_truthy then tweet_data.retweet_id else none
    is_retweet := rt_truthy }

-- _build_account_info (metadata.py lines 104-113)
def _build_account_info (user_data : UserData) : AccountInfo :=
  { name := user_data.name.getD ""
    nick := user_data.nick.getD ""
    date := _format_datetime (user_data.date.getD (PyDate.raw ""))
    followers_count := user_data.followers_count.getD 0
    friends_count := user_data.friends_count.getD 0
    profile_image := user_data.profile_image.getD ""
    statuses_count := user_data.statuses_count.getD 0 }

-- _is_twitter_media (metadata.py lines 75-76)
def _is_twitter_media (media_url : String) : Bool :=
  str_contains media_url TWITTER_IMAGE_DOMAIN || str_contains media_url TWITTER_VIDEO_DOMAIN

-- _should_include_media (metadata.py lines 79-92)
def _should_include_media (media_url : String) (tweet_data : TweetData) (media_type : String) : Bool :=
  if media_type == "all" then true
  else
    let tweet_type := tweet_data.tweet_type
    if media_type == "image" then
      str_contains media_url TWITTER_IMAGE_DOMAIN && tweet_type == some "photo"
    else if media_type == "video" then
      str_contains media_url TWITTER_VIDEO_DOMAIN && tweet_type == some "video"
    else if media_type == "gif" then
      str_contains media_url TWITTER_VIDEO_DOMAIN && tweet_type == some "animated_gif"
    else false

-- ===== exceptions and the error classifier =====

-- a response object attached to an exception; text none models a response
-- value (such as None) that has no text attribute
structure RespObj where
  text : Option String
deriving DecidableEq, Repr

-- a Python exception as the module observes it: str(e), its ValueError
-- status, and an optional response attribute (none = attribute absent)
structure Exn where
  msg : String
  is_value_error : Bool
  response : Option RespObj
deriving DecidableEq, Repr

def valueError (m : String) : Exn :=
  { msg := m, is_value_error := true, response := none }

-- the AttributeError raised by error.response.text when the response
-- object has no text attribute
def attr_error : Exn :=
  { msg := "object has no attribute text", is_value_error := false, response := none }

-- _is_withheld_error (metadata.py lines 95-101).  All three flags are
-- computed before the disjunction, so the response.text access runs even
-- when an earlier flag is already true; a response without a text
-- attribute makes the classifier itself raise.
def _is_withheld_error (error : Exn) : Except Exn Bool :=
  let error_msg := lower error.msg
  let is_withheld_value_error := error.is_value_error && (error.msg == WITHHELD_ERROR_CODE)
  let has_withheld_in_message := str_contains error_msg WITHHELD_ERROR_CODE
  match error.response with
  | none => .ok (is_withheld_value_error || has_withheld_in_message)
  | some r =>
    match r.text with
    | none => .error attr_error
    | some t =>
      .ok (is_withheld_value_error || has_withheld_in_message || str_contains (lower t) WITHHELD_ERROR_CODE)

-- the except block shared verbatim by both entry points
-- (metadata.py lines 221-229 and 359-367): maps a caught exception to the
-- returned error message, or re-raises what the classifier itself raised
def classify_boundary (e : Exn) : Except Exn String :=
  match _is_withheld_error e with
  | .error ae => .error ae
  | .ok true => .ok ERROR_MSG_WITHHELD
  | .ok false => .ok (if e.msg == "None" then ERROR_MSG_AUTH_FAILED else e.msg)

-- ===== the external platform-extractor collaborator =====

-- raw user record returned by the lookup API; only the withheld flag is
-- inspected by the module, the remainder is opaque payload for
-- _transform_user
structure Legacy where
  withheld_scope : Option String
deriving DecidableEq, Repr

structure User where
  legacy : Option Legacy
  payload : Nat
deriving DecidableEq, Repr

-- "legacy" in user and user["legacy"].get("withheld_scope") is truthy
def user_withheld (u : User) : Bool :=
  match u.legacy with
  | some lg =>
    match lg.withheld_scope with
    | some s => !(s == "")
    | none => false
  | none => false

-- one yielded item: a tuple of length at least 3 is modelled by its used
-- components item[1] (the media URL) and item[2] (the tweet metadata);
-- any other yield is opaque
inductive Item where
  | tuple3 (url : String) (data : TweetData)
  | other
deriving DecidableEq, Repr

-- what the iterator does after its listed items are exhausted
inductive StreamEnd where
  | exhausted
  | raise (e : Exn)
deriving DecidableEq, Repr

-- the opaque external collaborator: fixed outcomes of its operations
structure Env where
  -- whether re.match(extractor_class.pattern, url) succeeds, for the class
  -- selected by the timeline kind
  timeline_pattern_match : String → String → Bool
  -- same for TwitterSearchExtractor.pattern
  search_pattern_match : String → Bool
  -- extractor has no _cursor attribute or a falsy one ↔ none / some ""
  cursor_at_skip : Option String
  cursor_final : Option String
  -- outcome of extractor.initialize()
  init_step : Except Exn Unit
  user_by_screen_name : String → Except Exn User
  user_by_rest_id : String → Except Exn User
  transform_user : User → UserData
  stream : List Item
  stream_end : StreamEnd
  now : PyDate

-- Python truthiness of the cursor value
def cursor_truthy (c : Option String) : Bool :=
  match c with
  | some s => !(s == "")
  | none => false

def extractor_kind (timeline_type : String) : String :=
  if timeline_type == "media" then "media"
  else if timeline_type == "tweets" then "tweets"
  else if timeline_type == "with_replies" then "with_replies"
  else "timeline"

-- ===== timeline pagination engine (get_metadata, metadata.py 232-367) =====

-- the inner try/except around the account lookup (lines 277-289):
-- a caught exception is re-raised as ValueError("withheld") when the
-- classifier says so, re-raised unchanged otherwise; the classifier
-- itself raising propagates that raise
def reraise_check (e : Exn) : Except Exn User :=
  match _is_withheld_error e with
  | .error ae => .error ae
  | .ok true => .error (valueError WITHHELD_ERROR_CODE)
  | .ok false => .error e

def account_guard (r : Except Exn User) : Except Exn User :=
  match r with
  | .ok u => if user_withheld u then reraise_check (valueError WITHHELD_ERROR_CODE) else .ok u
  | .error e => reraise_check e

-- lines 278-281: lookup by rest id for id: usernames, else by screen name
def lookup_user (env : Env) (username : String) : Except Exn User :=
  if py_startswith username ['i', 'd', ':'] then
    env.user_by_rest_id (String.mk (username.data.drop 3))
  else
    env.user_by_screen_name username

-- the mutable state of the fetch loop (lines 313-316 and the dict fields
-- it updates)
structure FetchSt where
  fetched : Nat
  account_info : Option AccountInfo
  entries : List TimelineEntry
  total_urls : Nat
deriving DecidableEq, Repr

def init_fetch_st : FetchSt :=
  { fetched := 0, account_info := none, entries := [], total_urls := 0 }

-- the body of one fetch-loop iteration (lines 320-336)
def step_item (now : PyDate) (media_type : String) (it : Item) (st : FetchSt) : FetchSt :=
  let st1 : FetchSt := { st with fetched := st.fetched + 1 }
  match it with
  | .other => st1
  | .tuple3 media_url tweet_data =>
    let st2 : FetchSt :=
      match st1.account_info, tweet_data.user with
      | none, some u => { st1 with account_info := some (_build_account_info u) }
      | _, _ => st1
    if _is_twitter_media media_url then
      -- the timeline entry is built here in the source and appended only
      -- when the media-type filter passes
      if _should_include_media media_url tweet_data media_type then
        { st2 with
          entries := st2.entries ++ [_build_timeline_entry now media_url tweet_data]
          total_urls := st2.total_urls + 1 }
      else st2
    else st2

-- the fetch loop (lines 318-338): the cap is checked before each next();
-- only StopIteration (modelled by the listed items running out with
-- StreamEnd.exhausted) is caught, any other iterator failure propagates
def fetch_loop (now : PyDate) (media_type : String) :
    Option Nat → StreamEnd → List Item → FetchSt → Except Exn FetchSt
  | some 0, _, _, st => .ok st
  | _, ed, [], st =>
    (match ed with
     | .exhausted => .ok st
     | .raise e => .error e)
  | some (n + 1), ed, it :: rest, st =>
    fetch_loop now media_type (some n) ed rest (step_item now media_type it st)
  | none, ed, it :: rest, st =>
    fetch_loop now media_type none ed rest (step_item now media_type it st)

-- the offset-skip loop (lines 305-311): advances the iterator item by
-- item, silently stopping on StopIteration; any other failure propagates
def skip_loop : Nat → StreamEnd → List Item → Except Exn (List Item)
  | 0, _, l => .ok l
  | _ + 1, ed, [] =>
    (match ed with
     | .exhausted => .ok []
     | .raise e => .error e)
  | n + 1, ed, _ :: rest => skip_loop n ed rest

-- the skip phase (lines 299-311): performed only when both batch_size and
-- page are positive AND the extractor exposes no truthy cursor (with a
-- truthy cursor the code executes pass, skipping nothing)
def skip_phase (env : Env) (batch_size page : Int) : Except Exn (List Item) :=
  if batch_size > 0 && page > 0 then
    if cursor_truthy env.cursor_at_skip then .ok env.stream
    else skip_loop (page * batch_size).toNat env.stream_end env.stream
  else .ok env.stream

structure PageMetadata where
  new_entries : Nat
  page : Int
  batch_size : Int
  has_more : Bool
  cursor : Option String
deriving DecidableEq, Repr

structure TimelineSuccess where
  account_info : AccountInfo
  total_urls : Nat
  timeline : List TimelineEntry
  metadata : PageMetadata
deriving DecidableEq, Repr

-- a returned dictionary: the structured body or the single-key error dict
inductive TimelineResult where
  | success (s : TimelineSuccess)
  | error_body (msg : String)
deriving DecidableEq, Repr

-- the opaque cursor recorded into the metadata (lines 342-344):
-- the extractor cursor when truthy, None otherwise
def cursor_info_of (c : Option String) : Option String :=
  if cursor_truthy c then c else none

-- everything inside the try block of get_metadata (lines 273-357);
-- auth_token and the retweets flag only configure the extractor, whose
-- behaviour Env already fixes
def get_metadata_body (env : Env) (uname : String) (batch_size page : Int) (media_type : String) :
    Except Exn TimelineSuccess :=
  match env.init_step with
  | .error e => .error e
  | .ok _ =>
    match account_guard (lookup_user env uname) with
    | .error e => .error e
    | .ok _user =>
      match skip_phase env batch_size page with
      | .error e => .error e
      | .ok rest =>
        let items_to_fetch : Option Nat :=
          if batch_size > 0 then some batch_size.toNat else none
        match fetch_loop env.now media_type items_to_fetch env.stream_end rest init_fetch_st with
        | .error e => .error e
        | .ok st =>
          let md : PageMetadata :=
            { new_entries := st.entries.length
              page := page
              batch_size := batch_size
              has_more := decide (batch_size > 0) && ((st.fetched : Int) == batch_size)
              cursor := cursor_info_of env.cursor_final }
          match st.account_info with
          | none => .error (valueError ERROR_MSG_ACCOUNT_NOT_FOUND)
          | some ai =>
            .ok { account_info := ai
                  total_urls := st.total_urls
                  timeline := st.entries
                  metadata := md }

-- get_metadata (metadata.py lines 232-367).  The URL-pattern check sits
-- before the try block: its ValueError is raised to the caller, not
-- converted.  auth_token and retweets only configure the extractor.
def get_metadata (env : Env) (username auth_token : String) (timeline_type : String)
    (batch_size page : Int) (media_type : String) (retweets : Bool) :
    Except Exn TimelineResult :=
  let uname := _parse_username username
  let url := "https://x.com/" ++ uname ++ "/" ++ timeline_type
  if env.timeline_pattern_match (extractor_kind timeline_type) url then
    match get_metadata_body env uname batch_size page media_type with
    | .ok s => .ok (TimelineResult.success s)
    | .error e =>
      match classify_boundary e with
      | .ok msg => .ok (TimelineResult.error_body msg)
      | .error ae => .error ae
  else
    .error (valueError ("Invalid URL for " ++ timeline_type ++ ": " ++ url))

-- ===== date-range search engine (get_metadata_by_date, lines 116-229) =====

structure DateFilter where
  date_start : String
  date_end : String
  method : String
deriving DecidableEq, Repr

structure SearchMetadata where
  new_entries : Nat
  method : String
  date_range : String
deriving DecidableEq, Repr

structure SearchSuccess where
  account_info : AccountInfo
  total_urls : Nat
  timeline : List TimelineEntry
  search_query : String
  date_filter : DateFilter
  metadata : SearchMetadata
deriving DecidableEq, Repr

inductive SearchResult where
  | success (s : SearchSuccess)
  | error_body (msg : String)
deriving DecidableEq, Repr

-- the accumulation loop of get_metadata_by_date (lines 182-202): every
-- tuple item on a media domain is accepted, with no media-type filter.
-- StopIteration ends it normally; any other iterator failure is caught by
-- the surrounding handler, logged as a warning and truncates accumulation
-- without failing the call — so the returned data is the same whether the
-- listed items end in exhaustion or in a raise.
def search_loop (now : PyDate) : List Item → List TimelineEntry → Nat → List TimelineEntry × Nat
  | [], acc, total => (acc, total)
  | .tuple3 media_url tweet_data :: rest, acc, total =>
    if _is_twitter_media media_url then
      search_loop now rest (acc ++ [_build_timeline_entry now media_url tweet_data]) (total + 1)
    else
      search_loop now rest acc total
  | .other :: rest, acc, total => search_loop now rest acc total

-- everything inside the try block of get_metadata_by_date (lines 150-219);
-- the optional output file only mirrors the returned value to disk
def get_metadata_by_date_body (env : Env) (uname query date_start date_end : String) :
    Except Exn SearchSuccess :=
  match env.init_step with
  | .error e => .error e
  | .ok _ =>
    match account_guard (env.user_by_screen_name uname) with
    | .error e => .error e
    | .ok user =>
      let user_data := env.transform_user user
      let res := search_loop env.now env.stream [] 0
      .ok { account_info := _build_account_info user_data
            total_urls := res.2
            timeline := res.1
            search_query := query
            date_filter := { date_start := date_start, date_end := date_end, method := "search_api" }
            metadata :=
              { new_entries := res.1.length
                method := "search_api"
                date_range := date_start ++ " to " ++ date_end } }

-- get_metadata_by_date (metadata.py lines 116-229); the URL-pattern check
-- again sits before the try block and raises to the caller
def get_metadata_by_date (env : Env) (username auth_token date_start date_end : String)
    (media_filter : String) : Except Exn SearchResult :=
  let uname := _parse_username username
  let query := "from:" ++ uname ++ " since:" ++ date_start ++ " until:" ++ date_end
    ++ (if media_filter == "" then "" else " " ++ media_filter)
  let url := "https://x.com/search?q=" ++ query
  if env.search_pattern_match url then
    match get_metadata_by_date_body env uname query date_start date_end with
    | .ok s => .ok (SearchResult.success s)
    | .error e =>
      match classify_boundary e with
      | .ok msg => .ok (SearchResult.error_body msg)
      | .error ae => .error ae
  else
    .error (valueError ("Invalid search URL: " ++ url))

-- ===== specification-side characterizations =====
-- Pure formulas, independent of the loop recursions above, used to state
-- the claims; lemmas below prove the loops equal to them.

def take_cap : Option Nat → List Item → List Item
  | some c, l => l.take c
  | none, l => l

-- an item that the timeline path accumulates: a tuple on a media domain
-- that passes the media-type filter
def passes_filter (media_type : String) (it : Item) : Bool :=
  match it with
  | .tuple3 u d => _is_twitter_media u && _should_include_media u d media_type
  | .other => false

-- an item that the date-range path accumulates: a tuple on a media domain
def domain_pass (it : Item) : Bool :=
  match it with
  | .tuple3 u _ => _is_twitter_media u
  | .other => false

def entry_of (now : PyDate) (media_type : String) (it : Item) : Option TimelineEntry :=
  match it with
  | .tuple3 u d =>
    if _is_twitter_media u && _should_include_media u d media_type then
      some (_build_timeline_entry now u d)
    else none
  | .other => none

def entries_of (now : PyDate) (media_type : String) (l : List Item) : List TimelineEntry :=
  l.filterMap (entry_of now media_type)

def entry_of_domain (now : PyDate) (it : Item) : Option TimelineEntry :=
  match it with
  | .tuple3 u d => if _is_twitter_media u then some (_build_timeline_entry now u d) else none
  | .other => none

def entries_of_domain (now : PyDate) (l : List Item) : List TimelineEntry :=
  l.filterMap (entry_of_domain now)

def item_user_acct (it : Item) : Option AccountInfo :=
  match it with
  | .tuple3 _ d => d.user.map _build_account_info
  | .other => none

def acct_or (a b : Option AccountInfo) : Option AccountInfo :=
  match a with
  | some x => some x
  | none => b

def first_user_acct : List Item → Option AccountInfo
  | [] => none
  | it :: rest => acct_or (item_user_acct it) (first_user_acct rest)

-- how many items the skip phase discards
def eff_skip (batch_size page : Int) (cursor : Option String) : Nat :=
  if batch_size > 0 && page > 0 && !cursor_truthy cursor then (page * batch_size).toNat else 0

def after_skip (env : Env) (batch_size page : Int) : List Item :=
  env.stream.drop (eff_skip batch_size page env.cursor_at_skip)

def fetch_cap (batch_size : Int) : Option Nat :=
  if batch_size > 0 then some batch_size.toNat else none

-- the items the fetch phase actually processes in a successful call
def processed_slice (env : Env) (batch_size page : Int) : List Item :=
  take_cap (fetch_cap batch_size) (after_skip env batch_size page)

-- an exception whose response attribute, when present, has a text
-- attribute — the classifier can inspect it without itself raising
def good_exn (e : Exn) : Bool :=
  match e.response with
  | some r => r.text.isSome
  | none => true

def except_good {α : Type} : Except Exn α → Bool
  | .error e => good_exn e
  | .ok _ => true

def stream_end_good : StreamEnd → Bool
  | .raise e => good_exn e
  | .exhausted => true

-- did the call return normally (no raised exception past the boundary)?
def no_raise {α : Type} : Except Exn α → Bool
  | .ok _ => true
  | .error _ => false

-- projections used to read single fields out of a concrete run
def tl_new_entries (r : Except Exn TimelineResult) : Option Nat :=
  match r with
  | .ok (.success s) => some s.metadata.new_entries
  | _ => none

def tl_total_urls (r : Except Exn TimelineResult) : Option Nat :=
  match r with
  | .ok (.success s) => some s.total_urls
  | _ => none

def tl_error_msg (r : Except Exn TimelineResult) : Option String :=
  match r with
  | .ok (.error_body m) => some m
  | _ => none

def raised_msg (r : Except Exn TimelineResult) : Option (String × Bool) :=
  match r with
  | .error e => some (e.msg, e.is_value_error)
  | .ok _ => none

-- ===== concrete collaborators used to exercise the theorems =====

def user_data_w : UserData :=
  { name := some "Name", nick := some "nick", date := none, followers_count := some 10,
    friends_count := some 20, profile_image := some "img", statuses_count := some 30 }

def user_plain : User := { legacy := some { withheld_scope := none }, payload := 0 }

def user_withheld_w : User := { legacy := some { withheld_scope := some "us" }, payload := 0 }

def tweet_img : TweetData :=
  { date := none, tweet_id := some 7, tweet_type := some "photo",
    retweet_id := none, user := some user_data_w }

def auth_exn : Exn := { msg := "None", is_value_error := false, response := none }

-- an exception carrying a response attribute whose value has no text
-- attribute, as a transport failure with response = None does
def bad_exn : Exn :=
  { msg := "connection reset by peer", is_value_error := false, response := some { text := none } }

def env_base : Env :=
  { timeline_pattern_match := fun _ _ => true
    search_pattern_match := fun _ => true
    cursor_at_skip := none
    cursor_final := none
    init_step := .ok ()
    user_by_screen_name := fun _ => .ok user_plain
    user_by_rest_id := fun _ => .ok user_plain
    transform_user := fun _ => user_data_w
    stream := []
    stream_end := .exhausted
    now := PyDate.raw "NOW" }

def env_nopat : Env := { env_base with timeline_pattern_match := fun _ _ => false }

def env_cursor : Env :=
  { env_base with
      cursor_at_skip := some "token"
      stream := [Item.tuple3 "https://pbs.twimg.com/a.jpg" tweet_img] }

def env_one : Env :=
  { env_base with stream := [Item.tuple3 "https://pbs.twimg.com/a.jpg" tweet_img] }

def env_offsite : Env :=
  { env_base with stream := [Item.tuple3 "https://example.com/a.jpg" tweet_img] }

def env_two : Env := { env_base with stream := [Item.other, Item.other] }

def env_wh : Env :=
  { env_base with
      user_by_screen_name := fun _ => .ok user_withheld_w
      user_by_rest_id := fun _ => .ok user_withheld_w }

def env_auth : Env := { env_base with init_step := .error auth_exn }

def acct_w : AccountInfo := _build_account_info user_data_w

def entry_img : TimelineEntry :=
  { url := "https://pbs.twimg.com/a.jpg", date := "NOW", tweet_id := 7,
    tweet_type := some "photo", retweet_id := none, is_retweet := false }

def c4_success : TimelineSuccess :=
  { account_info := acct_w, total_urls := 1, timeline := [entry_img],
    metadata := { new_entries := 1, page := 0, batch_size := 1, has_more := true, cursor := none } }

def c5_tl_success : TimelineSuccess :=
  { account_info := acct_w, total_urls := 1, timeline := [entry_img],
    metadata := { new_entries := 1, page := 0, batch_size := 0, has_more := false, cursor := none } }

def c5_bd_success : SearchSuccess :=
  { account_info := acct_w, total_urls := 1, timeline := [entry_img],
    search_query := "from:user since:2024-01-01 until:2024-12-31 filter:media",
    date_filter := { date_start := "2024-01-01", date_end := "2024-12-31", method := "search_api" },
    metadata := { new_entries := 1, method := "search_api", date_range := "2024-01-01 to 2024-12-31" } }

-- a character allowed in a canonical lowercase handle: lowercase latin
-- letter, digit, or underscore
def is_handle_char (c : Char) : Bool :=
  (97 ≤ c.toNat && c.toNat ≤ 122) || (48 ≤ c.toNat && c.toNat ≤ 57) || c == '_'

-- ===== loop characterization lemmas =====

theorem skip_loop_exh (n : Nat) : ∀ l : List Item, skip_loop n .exhausted l = .ok (l.drop n) := by
  induction n with
  | zero => intro l; simp [skip_loop]
  | succ k ih =>
    intro l
    cases l with
    | nil => simp [skip_loop]
    | cons it rest => simpa [skip_loop] using ih rest

theorem skip_loop_raise (e : Exn) :
    ∀ (n : Nat) (l : List Item),
      skip_loop n (.raise e) l = if n ≤ l.length then .ok (l.drop n) else .error e := by
  intro n
  induction n with
  | zero => intro l; simp [skip_loop]
  | succ k ih =>
    intro l
    cases l with
    | nil => simp [skip_loop]
    | cons it rest =>
      simp only [skip_loop, ih rest, List.length_cons, List.drop_succ_cons]
      by_cases h : k ≤ rest.length
      · rw [if_pos h, if_pos (by omega)]
      · rw [if_neg h, if_neg (by omega)]

theorem skip_loop_error (n : Nat) :
    ∀ (l : List Item) (ed : StreamEnd) (e : Exn),
      skip_loop n ed l = .error e → ed = .raise e := by
  induction n with
  | zero => intro l ed e h; simp [skip_loop] at h
  | succ k ih =>
    intro l ed e h
    cases l with
    | nil =>
      cases ed with
      | exhausted => simp [skip_loop] at h
      | raise e0 => simp [skip_loop] at h; simp [h]
    | cons it rest => exact ih rest ed e (by simpa [skip_loop] using h)

theorem step_item_fetched (now : PyDate) (mt : String) (it : Item) (st : FetchSt) :
    (step_item now mt it st).fetched = st.fetched + 1 := by
  cases it with
  | other => rfl
  | tuple3 u d =>
    cases h : st.account_info <;> cases hu : d.user <;>
      by_cases h1 : _is_twitter_media u <;>
        by_cases h2 : _should_include_media u d mt <;>
          simp [step_item, h, hu, h1, h2]

theorem step_item_acct (now : PyDate) (mt : String) (it : Item) (st : FetchSt) :
    (step_item now mt it st).account_info = acct_or st.account_info (item_user_acct it) := by
  cases it with
  | other => cases h : st.account_info <;> simp [step_item, acct_or, item_user_acct, h]
  | tuple3 u d =>
    cases h : st.account_info <;> cases hu : d.user <;>
      by_cases h1 : _is_twitter_media u <;>
        by_cases h2 : _should_include_media u d mt <;>
          simp [step_item, acct_or, item_user_acct, h, hu, h1, h2]

theorem step_item_entries (now : PyDate) (mt : String) (it : Item) (st : FetchSt) :
    (step_item now mt it st).entries = st.entries ++ (entry_of now mt it).toList := by
  cases it with
  | other => simp [step_item, entry_of]
  | tuple3 u d =>
    cases h : st.account_info <;> cases hu : d.user <;>
      by_cases h1 : _is_twitter_media u <;>
        by_cases h2 : _should_include_media u d mt <;>
          simp [step_item, entry_of, h, hu, h1, h2]

theorem step_item_total (now : PyDate) (mt : String) (it : Item) (st : FetchSt) :
    (step_item now mt it st).total_urls = st.total_urls + (if passes_filter mt it then 1 else 0) := by
  cases it with
  | other => simp [step_item, passes_filter]
  | tuple3 u d =>
    cases h : st.account_info <;> cases hu : d.user <;>
      by_cases h1 : _is_twitter_media u <;>
        by_cases h2 : _should_include_media u d mt <;>
          simp [step_item, passes_filter, h, hu, h1, h2]

theorem acct_or_assoc (a b c : Option AccountInfo) :
    acct_or (acct_or a b) c = acct_or a (acct_or b c) := by
  cases a <;> simp [acct_or]

theorem take_cap_nil (cap : Option Nat) : take_cap cap [] = [] := by
  cases cap <;> simp [take_cap]

-- one fetch-loop step under a positive remaining cap
theorem take_cap_cons (c : Option Nat) (it : Item) (l : List Item) :
    take_cap (Option.map Nat.succ c) (it :: l) = it :: take_cap c l := by
  cases c <;> simp [take_cap]

theorem entries_of_cons (now : PyDate) (mt : String) (it : Item) (l : List Item) :
    entries_of now mt (it :: l) = (entry_of now mt it).toList ++ entries_of now mt l := by
  cases h : entry_of now mt it <;> simp [entries_of, List.filterMap_cons, h]

-- the fetch loop on a naturally exhausting stream computes exactly the
-- capped slice statistics
theorem fetch_loop_exh (now : PyDate) (mt : String) :
    ∀ (l : List Item) (cap : Option Nat) (st : FetchSt),
      fetch_loop now mt cap .exhausted l st =
        .ok { fetched := st.fetched + (take_cap cap l).length
              account_info := acct_or st.account_info (first_user_acct (take_cap cap l))
              entries := st.entries ++ entries_of now mt (take_cap cap l)
              total_urls := st.total_urls + List.countP (passes_filter mt) (take_cap cap l) } := by
  intro l
  induction l with
  | nil =>
    intro cap st
    have hnil : take_cap cap [] = [] := take_cap_nil cap
    have hst : st =
        { fetched := st.fetched + ([] : List Item).length
          account_info := acct_or st.account_info (first_user_acct [])
          entries := st.entries ++ entries_of now mt []
          total_urls := st.total_urls + List.countP (passes_filter mt) [] } := by
      cases st with
      | mk f a e t => cases a <;> simp [acct_or, first_user_acct, entries_of]
    cases cap with
    | none => rw [show fetch_loop now mt none .exhausted [] st = .ok st from rfl, hnil]; rw [← hst]
    | some c =>
      cases c with
      | zero => rw [show fetch_loop now mt (some 0) .exhausted [] st = .ok st from rfl, hnil]; rw [← hst]
      | succ k =>
        rw [show fetch_loop now mt (some (k + 1)) .exhausted [] st = .ok st from rfl, hnil]; rw [← hst]
  | cons it rest ih =>
    intro cap st
    cases cap with
    | some c =>
      cases c with
      | zero =>
        rw [show fetch_loop now mt (some 0) .exhausted (it :: rest) st = .ok st from rfl]
        have : take_cap (some 0) (it :: rest) = [] := by simp [take_cap]
        rw [this]
        cases st with
        | mk f a e t => cases a <;> simp [acct_or, first_user_acct, entries_of]
      | succ k =>
        rw [show fetch_loop now mt (some (k + 1)) .exhausted (it :: rest) st =
              fetch_loop now mt (some k) .exhausted rest (step_item now mt it st) from rfl,
            ih (some k) (step_item now mt it st)]
        have h1 := step_item_fetched now mt it st
        have h2 := step_item_acct now mt it st
        have h3 := step_item_entries now mt it st
        have h4 := step_item_total now mt it st
        simp only [take_cap, List.take_succ_cons, List.length_cons, first_user_acct,
          entries_of_cons, List.countP_cons, h1, h2, h3, h4, acct_or_assoc,
          Except.ok.injEq, FetchSt.mk.injEq]
        refine ⟨by omega, by trivial, by simp [List.append_assoc], by omega⟩
    | none =>
      rw [show fetch_loop now mt none .exhausted (it :: rest) st =
            fetch_loop now mt none .exhausted rest (step_item now mt it st) from rfl,
          ih none (step_item now mt it st)]
      have h1 := step_item_fetched now mt it st
      have h2 := step_item_acct now mt it st
      have h3 := step_item_entries now mt it st
      have h4 := step_item_total now mt it st
      simp only [take_cap, List.length_cons, first_user_acct, entries_of_cons,
        List.countP_cons, h1, h2, h3, h4, acct_or_assoc, Except.ok.injEq, FetchSt.mk.injEq]
      refine ⟨by omega, by trivial, by simp [List.append_assoc], by omega⟩

-- when the cap is reached within the listed items, the stream ending is
-- never consulted
theorem fetch_loop_raise_le (now : PyDate) (mt : String) (e : Exn) :
    ∀ (l : List Item) (c : Nat) (st : FetchSt), c ≤ l.length →
      fetch_loop now mt (some c) (.raise e) l st = fetch_loop now mt (some c) .exhausted l st := by
  intro l
  induction l with
  | nil =>
    intro c st hc
    cases c with
    | zero => rfl
    | succ k => simp at hc
  | cons it rest ih =>
    intro c st hc
    cases c with
    | zero => rfl
    | succ k =>
      rw [show fetch_loop now mt (some (k + 1)) (.raise e) (it :: rest) st =
            fetch_loop now mt (some k) (.raise e) rest (step_item now mt it st) from rfl,
          show fetch_loop now mt (some (k + 1)) .exhausted (it :: rest) st =
            fetch_loop now mt (some k) .exhausted rest (step_item now mt it st) from rfl]
      exact ih k _ (by simpa using hc)

-- when the listed items run out before the cap, the raising stream ending
-- is hit and the exception propagates
theorem fetch_loop_raise_gt (now : PyDate) (mt : String) (e : Exn) :
    ∀ (l : List Item) (c : Nat) (st : FetchSt), l.length < c →
      fetch_loop now mt (some c) (.raise e) l st = .error e := by
  intro l
  induction l with
  | nil =>
    intro c st hc
    cases c with
    | zero => omega
    | succ k => rfl
  | cons it rest ih =>
    intro c st hc
    cases c with
    | zero => omega
    | succ k =>
      rw [show fetch_loop now mt (some (k + 1)) (.raise e) (it :: rest) st =
            fetch_loop now mt (some k) (.raise e) rest (step_item now mt it st) from rfl]
      exact ih k _ (by simpa using hc)

-- with no cap, the loop always runs into the stream ending
theorem fetch_loop_none_raise (now : PyDate) (mt : String) (e : Exn) :
    ∀ (l : List Item) (st : FetchSt),
      fetch_loop now mt none (.raise e) l st = .error e := by
  intro l
  induction l with
  | nil => intro st; rfl
  | cons it rest ih =>
    intro st
    rw [show fetch_loop now mt none (.raise e) (it :: rest) st =
          fetch_loop now mt none (.raise e) rest (step_item now mt it st) from rfl]
    exact ih _

-- the fetch loop can only raise what the iterator raised
theorem fetch_loop_error (now : PyDate) (mt : String) :
    ∀ (l : List Item) (cap : Option Nat) (ed : StreamEnd) (st : FetchSt) (e : Exn),
      fetch_loop now mt cap ed l st = .error e → ed = .raise e := by
  intro l
  induction l with
  | nil =>
    intro cap ed st e h
    cases ed with
    | exhausted =>
      exfalso
      cases cap with
      | none => simp [fetch_loop] at h
      | some c => cases c <;> simp [fetch_loop] at h
    | raise e0 =>
      cases cap with
      | none => simp [fetch_loop] at h; simp [h]
      | some c =>
        cases c with
        | zero => simp [fetch_loop] at h
        | succ k => simp [fetch_loop] at h; simp [h]
  | cons it rest ih =>
    intro cap ed st e h
    cases cap with
    | none => exact ih none ed _ e h
    | some c =>
      cases c with
      | zero => simp [fetch_loop] at h
      | succ k => exact ih (some k) ed _ e h

-- a successful fetch always equals the capped-slice statistics
theorem fetch_loop_ok (now : PyDate) (mt : String) (l : List Item) (cap : Option Nat)
    (ed : StreamEnd) (st r : FetchSt)
    (h : fetch_loop now mt cap ed l st = .ok r) :
    r = { fetched := st.fetched + (take_cap cap l).length
          account_info := acct_or st.account_info (first_user_acct (take_cap cap l))
          entries := st.entries ++ entries_of now mt (take_cap cap l)
          total_urls := st.total_urls + List.countP (passes_filter mt) (take_cap cap l) } := by
  cases ed with
  | exhausted =>
    rw [fetch_loop_exh now mt l cap st] at h
    exact (Except.ok.inj h).symm
  | raise e =>
    cases cap with
    | none => rw [fetch_loop_none_raise now mt e l st] at h; exact absurd h (by simp)
    | some c =>
      by_cases hc : c ≤ l.length
      · rw [fetch_loop_raise_le now mt e l c st hc, fetch_loop_exh now mt l (some c) st] at h
        exact (Except.ok.inj h).symm
      · rw [fetch_loop_raise_gt now mt e l c st (by omega)] at h
        exact absurd h (by simp)

-- a successful skip phase leaves exactly the post-skip suffix
theorem skip_phase_ok (env : Env) (batch_size page : Int) (rest : List Item)
    (h : skip_phase env batch_size page = .ok rest) :
    rest = after_skip env batch_size page := by
  by_cases hb : batch_size > 0 <;> by_cases hp : page > 0 <;>
    cases hcur : cursor_truthy env.cursor_at_skip <;>
      simp only [skip_phase, after_skip, eff_skip, hb, hp, hcur, decide_eq_true_eq,
        decide_eq_false_iff_not, not_true, not_false_iff, Bool.and_true, Bool.and_false,
        Bool.true_and, Bool.false_and, Bool.not_true, Bool.not_false, if_true, if_false,
        decide_True, decide_False, List.drop_zero, Bool.and_self] at h ⊢
  case pos.false =>
    cases hed : env.stream_end with
    | exhausted => rw [hed, skip_loop_exh] at h; exact (Except.ok.inj h).symm
    | raise e =>
      rw [hed, skip_loop_raise] at h
      by_cases hle : (page * batch_size).toNat ≤ env.stream.length
      · rw [if_pos hle] at h; exact (Except.ok.inj h).symm
      · rw [if_neg hle] at h; exact absurd h (by simp)
  all_goals exact (Except.ok.inj h).symm

-- the search loop collects every domain-matching tuple item
theorem search_loop_spec (now : PyDate) :
    ∀ (l : List Item) (acc : List TimelineEntry) (total : Nat),
      search_loop now l acc total =
        (acc ++ entries_of_domain now l, total + List.countP domain_pass l) := by
  intro l
  induction l with
  | nil => intro acc total; simp [search_loop, entries_of_domain]
  | cons it rest ih =>
    intro acc total
    cases it with
    | other =>
      simp only [search_loop, ih, entries_of_domain, List.filterMap_cons, entry_of_domain,
        List.countP_cons, domain_pass]
      simp
    | tuple3 u d =>
      by_cases hm : _is_twitter_media u
      · simp only [search_loop, hm, if_pos, ih, entries_of_domain, List.filterMap_cons,
          entry_of_domain, List.countP_cons, domain_pass]
        simp [hm]
        omega
      · simp only [search_loop, ih, entries_of_domain, List.filterMap_cons,
          entry_of_domain, List.countP_cons, domain_pass]
        simp [hm]

-- a successful timeline body is fully characterized by the processed slice
theorem get_metadata_body_ok (env : Env) (uname : String) (batch_size page : Int)
    (media_type : String) (s : TimelineSuccess)
    (h : get_metadata_body env uname batch_size page media_type = .ok s) :
    s.total_urls = List.countP (passes_filter media_type) (processed_slice env batch_size page) ∧
    s.timeline = entries_of env.now media_type (processed_slice env batch_size page) ∧
    s.metadata.has_more =
      (decide (batch_size > 0) && (((processed_slice env batch_size page).length : Int) == batch_size)) ∧
    s.metadata.new_entries = (entries_of env.now media_type (processed_slice env batch_size page)).length ∧
    some s.account_info = first_user_acct (processed_slice env batch_size page) := by
  unfold get_metadata_body at h
  cases hi : env.init_step with
  | error e => rw [hi] at h; exact absurd h (by simp)
  | ok u =>
    rw [hi] at h
    dsimp only at h
    cases hg : account_guard (lookup_user env uname) with
    | error e => rw [hg] at h; exact absurd h (by simp)
    | ok user =>
      rw [hg] at h
      dsimp only at h
      cases hs : skip_phase env batch_size page with
      | error e => rw [hs] at h; exact absurd h (by simp)
      | ok rest =>
        rw [hs] at h
        dsimp only at h
        have hrest : rest = after_skip env batch_size page := skip_phase_ok env batch_size page rest hs
        cases hf : fetch_loop env.now media_type
            (if batch_size > 0 then some batch_size.toNat else none) env.stream_end rest init_fetch_st with
        | error e => rw [hf] at h; exact absurd h (by simp)
        | ok st =>
          rw [hf] at h
          dsimp only at h
          have hst := fetch_loop_ok env.now media_type rest _ env.stream_end init_fetch_st st hf
          have hcap : (if batch_size > 0 then some batch_size.toNat else none) = fetch_cap batch_size := rfl
          rw [hcap, hrest] at hst
          have hslice : take_cap (fetch_cap batch_size) (after_skip env batch_size page) =
              processed_slice env batch_size page := rfl
          rw [hslice] at hst
          cases ha : st.account_info with
          | none => rw [ha] at h; exact absurd h (by simp)
          | some ai =>
            rw [ha] at h
            dsimp only at h
            have hrec := Except.ok.inj h
            rw [← hrec]
            rw [hst] at ha
            simp only [init_fetch_st] at ha
            refine ⟨?_, ?_, ?_, ?_, ?_⟩
            · rw [hst]; simp [init_fetch_st]
            · rw [hst]; simp [init_fetch_st]
            · rw [hst]; simp [init_fetch_st]
            · rw [hst]; simp [init_fetch_st]
            · rw [← ha]
              simp [acct_or]

-- ===== which exceptions the boundary handler can itself choke on =====

theorem good_exn_valueError (m : String) : good_exn (valueError m) = true := rfl

theorem withheld_check_ok (e : Exn) (hg : good_exn e = true) :
    ∃ b, _is_withheld_error e = .ok b := by
  unfold good_exn at hg
  cases hr : e.response with
  | none =>
    exact ⟨e.is_value_error && (e.msg == WITHHELD_ERROR_CODE)
        || str_contains (lower e.msg) WITHHELD_ERROR_CODE,
      by simp only [_is_withheld_error, hr]⟩
  | some r =>
    rw [hr] at hg
    dsimp only at hg
    cases ht : r.text with
    | none => rw [ht] at hg; simp at hg
    | some t =>
      exact ⟨e.is_value_error && (e.msg == WITHHELD_ERROR_CODE)
          || str_contains (lower e.msg) WITHHELD_ERROR_CODE
          || str_contains (lower t) WITHHELD_ERROR_CODE,
        by simp only [_is_withheld_error, hr, ht]⟩

theorem classify_boundary_ok (e : Exn) (hg : good_exn e = true) :
    ∃ m, classify_boundary e = .ok m := by
  obtain ⟨b, hb⟩ := withheld_check_ok e hg
  unfold classify_boundary
  rw [hb]
  cases b <;> exact ⟨_, rfl⟩

theorem reraise_check_error (e e' : Exn) (hg : good_exn e = true)
    (h : reraise_check e = .error e') : good_exn e' = true := by
  obtain ⟨b, hb⟩ := withheld_check_ok e hg
  unfold reraise_check at h
  rw [hb] at h
  cases b with
  | true => simp at h; rw [← h]; rfl
  | false => simp at h; rw [← h]; exact hg

theorem account_guard_error (r : Except Exn User) (e' : Exn)
    (hr : except_good r = true) (h : account_guard r = .error e') : good_exn e' = true := by
  unfold account_guard at h
  cases r with
  | error e => exact reraise_check_error e e' hr h
  | ok u =>
    dsimp only at h
    by_cases hw : user_withheld u = true
    · rw [if_pos hw] at h
      exact reraise_check_error (valueError WITHHELD_ERROR_CODE) e' (good_exn_valueError _) h
    · rw [if_neg hw] at h
      exact absurd h (by simp)

-- every exception the timeline body can raise is classifiable, given that
-- the collaborator only raises classifiable exceptions
theorem get_metadata_body_error_good (env : Env) (uname : String) (batch_size page : Int)
    (media_type : String) (e : Exn)
    (h1 : except_good env.init_step = true)
    (h2 : except_good (lookup_user env uname) = true)
    (h3 : stream_end_good env.stream_end = true)
    (h : get_metadata_body env uname batch_size page media_type = .error e) :
    good_exn e = true := by
  unfold get_metadata_body at h
  cases hi : env.init_step with
  | error e0 =>
    rw [hi] at h
    simp at h
    rw [← h]
    rw [hi] at h1
    exact h1
  | ok u =>
    rw [hi] at h
    dsimp only at h
    cases hg : account_guard (lookup_user env uname) with
    | error e0 =>
      rw [hg] at h
      simp at h
      rw [← h]
      exact account_guard_error _ e0 h2 hg
    | ok user =>
      rw [hg] at h
      dsimp only at h
      cases hs : skip_phase env batch_size page with
      | error e0 =>
        rw [hs] at h
        simp at h
        rw [← h]
        unfold skip_phase at hs
        have : env.stream_end = .raise e0 := by
          by_cases hbp : (decide (batch_size > 0) && decide (page > 0)) = true
          · rw [if_pos hbp] at hs
            by_cases hcur : cursor_truthy env.cursor_at_skip = true
            · rw [if_pos hcur] at hs; exact absurd hs (by simp)
            · rw [if_neg hcur] at hs
              exact skip_loop_error _ _ _ e0 hs
          · rw [if_neg hbp] at hs; exact absurd hs (by simp)
        rw [this] at h3
        exact h3
      | ok rest =>
        rw [hs] at h
        dsimp only at h
        cases hf : fetch_loop env.now media_type
            (if batch_size > 0 then some batch_size.toNat else none) env.stream_end rest init_fetch_st with
        | error e0 =>
          rw [hf] at h
          simp at h
          rw [← h]
          have := fetch_loop_error env.now media_type rest _ env.stream_end init_fetch_st e0 hf
          rw [this] at h3
          exact h3
        | ok st =>
          rw [hf] at h
          dsimp only at h
          cases ha : st.account_info with
          | none =>
            rw [ha] at h
            simp at h
            rw [← h]
            rfl
          | some ai => rw [ha] at h; exact absurd h (by simp)

theorem by_date_body_error_good (env : Env) (uname query ds de : String) (e : Exn)
    (h1 : except_good env.init_step = true)
    (h2 : except_good (env.user_by_screen_name uname) = true)
    (h : get_metadata_by_date_body env uname query ds de = .error e) :
    good_exn e = true := by
  unfold get_metadata_by_date_body at h
  cases hi : env.init_step with
  | error e0 =>
    rw [hi] at h
    simp at h
    rw [← h]
    rw [hi] at h1
    exact h1
  | ok u =>
    rw [hi] at h
    dsimp only at h
    cases hg : account_guard (env.user_by_screen_name uname) with
    | error e0 =>
      rw [hg] at h
      simp at h
      rw [← h]
      exact account_guard_error _ e0 h2 hg
    | ok user => rw [hg] at h; exact absurd h (by simp)

-- a successful search body counts exactly the domain-matching tuples of
-- the whole stream
theorem by_date_body_ok (env : Env) (uname query ds de : String) (s : SearchSuccess)
    (h : get_metadata_by_date_body env uname query ds de = .ok s) :
    s.total_urls = List.countP domain_pass env.stream ∧
    s.timeline = entries_of_domain env.now env.stream := by
  unfold get_metadata_by_date_body at h
  cases hi : env.init_step with
  | error e0 => rw [hi] at h; exact absurd h (by simp)
  | ok u =>
    rw [hi] at h
    dsimp only at h
    cases hg : account_guard (env.user_by_screen_name uname) with
    | error e0 => rw [hg] at h; exact absurd h (by simp)
    | ok user =>
      rw [hg] at h
      dsimp only at h
      rw [search_loop_spec env.now env.stream [] 0] at h
      have hrec := Except.ok.inj h
      rw [← hrec]
      simp

-- a success result can only come out of the guarded body, with the URL
-- pattern having matched
theorem get_metadata_success_inv (env : Env) (username auth_token timeline_type : String)
    (batch_size page : Int) (media_type : String) (retweets : Bool) (s : TimelineSuccess)
    (h : get_metadata env username auth_token timeline_type batch_size page media_type retweets
      = .ok (TimelineResult.success s)) :
    get_metadata_body env (_parse_username username) batch_size page media_type = .ok s := by
  unfold get_metadata at h
  dsimp only at h
  by_cases hpm : env.timeline_pattern_match (extractor_kind timeline_type)
      ("https://x.com/" ++ _parse_username username ++ "/" ++ timeline_type) = true
  · rw [if_pos hpm] at h
    cases hb : get_metadata_body env (_parse_username username) batch_size page media_type with
    | ok s2 =>
      rw [hb] at h
      dsimp only at h
      have := Except.ok.inj h
      rw [TimelineResult.success.inj this]
    | error e =>
      rw [hb] at h
      dsimp only at h
      cases hc : classify_boundary e with
      | ok m => rw [hc] at h; exact absurd (Except.ok.inj h) (by simp)
      | error ae => rw [hc] at h; exact absurd h (by simp)
  · rw [if_neg hpm] at h
    exact absurd h (by simp)

theorem get_metadata_by_date_success_inv (env : Env)
    (username auth_token date_start date_end media_filter : String) (s : SearchSuccess)
    (h : get_metadata_by_date env username auth_token date_start date_end media_filter
      = .ok (SearchResult.success s)) :
    get_metadata_by_date_body env (_parse_username username)
      ("from:" ++ _parse_username username ++ " since:" ++ date_start ++ " until:" ++ date_end
        ++ (if media_filter == "" then "" else " " ++ media_filter)) date_start date_end = .ok s := by
  unfold get_metadata_by_date at h
  dsimp only at h
  by_cases hpm : env.search_pattern_match
      ("https://x.com/search?q=" ++ ("from:" ++ _parse_username username ++ " since:" ++ date_start
        ++ " until:" ++ date_end ++ (if media_filter == "" then "" else " " ++ media_filter))) = true
  · rw [if_pos hpm] at h
    cases hb : get_metadata_by_date_body env (_parse_username username)
        ("from:" ++ _parse_username username ++ " since:" ++ date_start ++ " until:" ++ date_end
          ++ (if media_filter == "" then "" else " " ++ media_filter)) date_start date_end with
    | ok s2 =>
      rw [hb] at h
      dsimp only at h
      have := Except.ok.inj h
      rw [SearchResult.success.inj this]
    | error e =>
      rw [hb] at h
      dsimp only at h
      cases hc : classify_boundary e with
      | ok m => rw [hc] at h; exact absurd (Except.ok.inj h) (by simp)
      | error ae => rw [hc] at h; exact absurd h (by simp)
  · rw [if_neg hpm] at h
    exact absurd h (by simp)

-- ===== the claims =====

/-- C7: the media-type filter admits exactly these combinations: filter
all always includes; image includes exactly image-domain URLs of tweet
type photo; video includes exactly video-domain URLs of type video; gif
includes exactly video-domain URLs of type animated_gif; every other
combination is excluded. -/
theorem media_filter_characterization (media_url : String) (tweet_data : TweetData)
    (media_type : String) :
    _should_include_media media_url tweet_data media_type = true ↔
      media_type = "all"
      ∨ (media_type = "image" ∧ str_contains media_url TWITTER_IMAGE_DOMAIN = true
          ∧ tweet_data.tweet_type = some "photo")
      ∨ (media_type = "video" ∧ str_contains media_url TWITTER_VIDEO_DOMAIN = true
          ∧ tweet_data.tweet_type = some "video")
      ∨ (media_type = "gif" ∧ str_contains media_url TWITTER_VIDEO_DOMAIN = true
          ∧ tweet_data.tweet_type = some "animated_gif") := by
  unfold _should_include_media
  by_cases h1 : media_type = "all" <;>
    by_cases h2 : media_type = "image" <;>
      by_cases h3 : media_type = "video" <;>
        by_cases h4 : media_type = "gif" <;>
          simp [h1, h2, h3, h4, Bool.and_eq_true, beq_iff_eq]

/-- C10 counterexample: the classifier is not total — on an exception
whose response attribute has no text attribute it raises an
AttributeError instead of returning a boolean. -/
theorem classifier_raises_on_textless_response :
    _is_withheld_error bad_exn = .error attr_error := rfl

/-- C10 amended: the classifier returns a boolean for every exception
whose response attribute, when present, carries a text attribute; when a
response is present without a text attribute, the classifier itself
raises an AttributeError. -/
theorem classifier_total_amended (e : Exn) :
    (good_exn e = true → ∃ b, _is_withheld_error e = .ok b) ∧
    (good_exn e = false → _is_withheld_error e = .error attr_error) := by
  constructor
  · exact withheld_check_ok e
  · intro hg
    unfold good_exn at hg
    cases hr : e.response with
    | none => rw [hr] at hg; simp at hg
    | some r =>
      rw [hr] at hg
      dsimp only at hg
      cases ht : r.text with
      | some t => rw [ht] at hg; simp at hg
      | none => simp only [_is_withheld_error, hr, ht]

/-- C10 witness: a plain ValueError is classified without raising. -/
theorem classifier_total_amended_witness :
    ∃ b, _is_withheld_error (valueError "timeout") = .ok b :=
  (classifier_total_amended (valueError "timeout")).1 rfl

/-- C9: a failure caught at either engine boundary whose stringified
message is exactly the literal None, and which the classifier does not
mark withheld, is returned as the fixed authentication-failure message. -/
theorem auth_reclassification (env : Env) (username auth_token timeline_type : String)
    (batch_size page : Int) (media_type : String) (retweets : Bool)
    (date_start date_end media_filter : String) (e1 e2 : Exn) :
    (env.timeline_pattern_match (extractor_kind timeline_type)
        ("https://x.com/" ++ _parse_username username ++ "/" ++ timeline_type) = true →
      get_metadata_body env (_parse_username username) batch_size page media_type = .error e1 →
      e1.msg = "None" → _is_withheld_error e1 = .ok false →
      get_metadata env username auth_token timeline_type batch_size page media_type retweets
        = .ok (TimelineResult.error_body ERROR_MSG_AUTH_FAILED)) ∧
    (env.search_pattern_match
        ("https://x.com/search?q=" ++ ("from:" ++ _parse_username username ++ " since:" ++ date_start
          ++ " until:" ++ date_end ++ (if media_filter == "" then "" else " " ++ media_filter))) = true →
      get_metadata_by_date_body env (_parse_username username)
        ("from:" ++ _parse_username username ++ " since:" ++ date_start ++ " until:" ++ date_end
          ++ (if media_filter == "" then "" else " " ++ media_filter)) date_start date_end = .error e2 →
      e2.msg = "None" → _is_withheld_error e2 = .ok false →
      get_metadata_by_date env username auth_token date_start date_end media_filter
        = .ok (SearchResult.error_body ERROR_MSG_AUTH_FAILED)) := by
  constructor
  · intro hpat hbody hmsg hwith
    have hcl : classify_boundary e1 = .ok ERROR_MSG_AUTH_FAILED := by
      unfold classify_boundary
      rw [hwith, hmsg]
      simp
    unfold get_metadata
    dsimp only
    rw [if_pos hpat, hbody]
    dsimp only
    rw [hcl]
  · intro hpat hbody hmsg hwith
    have hcl : classify_boundary e2 = .ok ERROR_MSG_AUTH_FAILED := by
      unfold classify_boundary
      rw [hwith, hmsg]
      simp
    unfold get_metadata_by_date
    dsimp only
    rw [if_pos hpat, hbody]
    dsimp only
    rw [hcl]

/-- C9 witness: an initialization failure stringifying to None yields the
fixed authentication-failure error in both entry points. -/
theorem auth_reclassification_witness :
    get_metadata env_auth "user" "tok" "timeline" 0 0 "all" false
      = .ok (TimelineResult.error_body ERROR_MSG_AUTH_FAILED) ∧
    get_metadata_by_date env_auth "user" "tok" "2024-01-01" "2024-12-31" "filter:media"
      = .ok (SearchResult.error_body ERROR_MSG_AUTH_FAILED) :=
  ⟨(auth_reclassification env_auth "user" "tok" "timeline" 0 0 "all" false
      "2024-01-01" "2024-12-31" "filter:media" auth_exn auth_exn).1 rfl rfl rfl rfl,
   (auth_reclassification env_auth "user" "tok" "timeline" 0 0 "all" false
      "2024-01-01" "2024-12-31" "filter:media" auth_exn auth_exn).2 rfl rfl rfl rfl⟩

/-- C8: a lookup returning a user record whose legacy object carries a
truthy withheld_scope flag makes either entry point return the fixed
withheld error message, with no exception raised by the lookup itself. -/
theorem withheld_flag_fixed_error (env : Env) (username auth_token timeline_type : String)
    (batch_size page : Int) (media_type : String) (retweets : Bool)
    (date_start date_end media_filter : String) (u : User)
    (hpat1 : env.timeline_pattern_match (extractor_kind timeline_type)
      ("https://x.com/" ++ _parse_username username ++ "/" ++ timeline_type) = true)
    (hpat2 : env.search_pattern_match
      ("https://x.com/search?q=" ++ ("from:" ++ _parse_username username ++ " since:" ++ date_start
        ++ " until:" ++ date_end ++ (if media_filter == "" then "" else " " ++ media_filter))) = true)
    (hinit : env.init_step = .ok ())
    (hlu : lookup_user env (_parse_username username) = .ok u)
    (hsn : env.user_by_screen_name (_parse_username username) = .ok u)
    (hw : user_withheld u = true) :
    get_metadata env username auth_token timeline_type batch_size page media_type retweets
      = .ok (TimelineResult.error_body ERROR_MSG_WITHHELD) ∧
    get_metadata_by_date env username auth_token date_start date_end media_filter
      = .ok (SearchResult.error_body ERROR_MSG_WITHHELD) := by
  have hre : reraise_check (valueError WITHHELD_ERROR_CODE)
      = .error (valueError WITHHELD_ERROR_CODE) := rfl
  have hcl : classify_boundary (valueError WITHHELD_ERROR_CODE) = .ok ERROR_MSG_WITHHELD := rfl
  have hg1 : account_guard (lookup_user env (_parse_username username))
      = .error (valueError WITHHELD_ERROR_CODE) := by
    rw [hlu]
    unfold account_guard
    dsimp only
    rw [if_pos hw]
    exact hre
  have hg2 : account_guard (env.user_by_screen_name (_parse_username username))
      = .error (valueError WITHHELD_ERROR_CODE) := by
    rw [hsn]
    unfold account_guard
    dsimp only
    rw [if_pos hw]
    exact hre
  constructor
  · have hb : get_metadata_body env (_parse_username username) batch_size page media_type
        = .error (valueError WITHHELD_ERROR_CODE) := by
      unfold get_metadata_body
      rw [hinit]
      dsimp only
      rw [hg1]
    unfold get_metadata
    dsimp only
    rw [if_pos hpat1, hb]
    dsimp only
    rw [hcl]
  · have hb : get_metadata_by_date_body env (_parse_username username)
        ("from:" ++ _parse_username username ++ " since:" ++ date_start ++ " until:" ++ date_end
          ++ (if media_filter == "" then "" else " " ++ media_filter)) date_start date_end
        = .error (valueError WITHHELD_ERROR_CODE) := by
      unfold get_metadata_by_date_body
      rw [hinit]
      dsimp only
      rw [hg2]
    unfold get_metadata_by_date
    dsimp only
    rw [if_pos hpat2, hb]
    dsimp only
    rw [hcl]

/-- C8 witness: a concrete withheld-flagged account record produces the
fixed withheld message in both entry points. -/
theorem withheld_flag_fixed_error_witness :
    get_metadata env_wh "user" "tok" "timeline" 0 0 "all" false
      = .ok (TimelineResult.error_body ERROR_MSG_WITHHELD) ∧
    get_metadata_by_date env_wh "user" "tok" "2024-01-01" "2024-12-31" "filter:media"
      = .ok (SearchResult.error_body ERROR_MSG_WITHHELD) :=
  withheld_flag_fixed_error env_wh "user" "tok" "timeline" 0 0 "all" false
    "2024-01-01" "2024-12-31" "filter:media" user_withheld_w rfl rfl rfl rfl rfl rfl

/-- C1 counterexample: when the synthesized URL does not match the
extractor pattern, get_metadata raises a ValueError to the caller instead
of returning an error dictionary — the raise sits before the try block. -/
theorem url_mismatch_escapes :
    raised_msg (get_metadata env_nopat "user" "tok" "timeline" 0 0 "all" false)
      = some ("Invalid URL for timeline: https://x.com/user/timeline", true) := rfl

/-- C1 amended: every failure raised inside the guarded region of either
entry point whose classification does not itself raise is converted to a
returned error dictionary; the invalid-request failure from a URL-pattern
mismatch, raised before the guarded region, escapes to the caller. -/
theorem error_containment_amended (env : Env) (username auth_token timeline_type : String)
    (batch_size page : Int) (media_type : String) (retweets : Bool)
    (date_start date_end media_filter : String)
    (hpat1 : env.timeline_pattern_match (extractor_kind timeline_type)
      ("https://x.com/" ++ _parse_username username ++ "/" ++ timeline_type) = true)
    (hpat2 : env.search_pattern_match
      ("https://x.com/search?q=" ++ ("from:" ++ _parse_username username ++ " since:" ++ date_start
        ++ " until:" ++ date_end ++ (if media_filter == "" then "" else " " ++ media_filter))) = true)
    (h1 : except_good env.init_step = true)
    (h2 : except_good (lookup_user env (_parse_username username)) = true)
    (h3 : except_good (env.user_by_screen_name (_parse_username username)) = true)
    (h4 : stream_end_good env.stream_end = true) :
    no_raise (get_metadata env username auth_token timeline_type batch_size page media_type retweets)
      = true ∧
    no_raise (get_metadata_by_date env username auth_token date_start date_end media_filter)
      = true := by
  constructor
  · unfold get_metadata
    dsimp only
    rw [if_pos hpat1]
    cases hb : get_metadata_body env (_parse_username username) batch_size page media_type with
    | ok s => rfl
    | error e =>
      have hge : good_exn e = true :=
        get_metadata_body_error_good env _ batch_size page media_type e h1 h2 h4 hb
      obtain ⟨m, hm⟩ := classify_boundary_ok e hge
      dsimp only
      rw [hm]
      rfl
  · unfold get_metadata_by_date
    dsimp only
    rw [if_pos hpat2]
    cases hb : get_metadata_by_date_body env (_parse_username username)
        ("from:" ++ _parse_username username ++ " since:" ++ date_start ++ " until:" ++ date_end
          ++ (if media_filter == "" then "" else " " ++ media_filter)) date_start date_end with
    | ok s => rfl
    | error e =>
      have hge : good_exn e = true :=
        by_date_body_error_good env _ _ date_start date_end e h1 h3 hb
      obtain ⟨m, hm⟩ := classify_boundary_ok e hge
      dsimp only
      rw [hm]
      rfl

/-- C1 witness: with a matching URL pattern and classifiable collaborator
failures, both entry points return normally. -/
theorem error_containment_witness :
    no_raise (get_metadata env_base "user" "tok" "timeline" 0 0 "all" false) = true ∧
    no_raise (get_metadata_by_date env_base "user" "tok" "2024-01-01" "2024-12-31" "filter:media")
      = true :=
  error_containment_amended env_base "user" "tok" "timeline" 0 0 "all" false
    "2024-01-01" "2024-12-31" "filter:media" rfl rfl rfl rfl rfl rfl

/-- C2 counterexample: with batch_size 100, page 2 and a stream of fewer
than 200 items, the call does not return an error-free empty result — it
returns the account-not-found error dictionary, because nothing was
fetched after the skip and no account info was ever populated. -/
theorem skip_past_end_error_dict :
    get_metadata env_base "user" "tok" "timeline" 100 2 "all" false
      = .ok (TimelineResult.error_body ERROR_MSG_ACCOUNT_NOT_FOUND) ∧
    env_base.stream.length < 200 := ⟨rfl, by decide⟩

/-- C2 amended: with batch_size 100, page 2, no truthy cursor, and a
naturally exhausting stream of fewer than 200 items, the skip phase
exhausts the stream without raising, zero items are fetched, and the call
returns the account-not-found error dictionary rather than an error-free
result. -/
theorem skip_past_end_amended (env : Env) (username auth_token timeline_type media_type : String)
    (retweets : Bool) (u : User)
    (hpat : env.timeline_pattern_match (extractor_kind timeline_type)
      ("https://x.com/" ++ _parse_username username ++ "/" ++ timeline_type) = true)
    (hinit : env.init_step = .ok ())
    (hlu : lookup_user env (_parse_username username) = .ok u)
    (hw : user_withheld u = false)
    (hcur : cursor_truthy env.cursor_at_skip = false)
    (hed : env.stream_end = .exhausted)
    (hlen : env.stream.length < 200) :
    get_metadata env username auth_token timeline_type 100 2 media_type retweets
      = .ok (TimelineResult.error_body ERROR_MSG_ACCOUNT_NOT_FOUND) := by
  have hg : account_guard (lookup_user env (_parse_username username)) = .ok u := by
    rw [hlu]
    unfold account_guard
    dsimp only
    rw [if_neg (by simp [hw])]
  have hdrop : env.stream.drop 200 = [] := by
    apply List.drop_eq_nil_of_le
    omega
  have hsk : skip_phase env 100 2 = .ok [] := by
    unfold skip_phase
    rw [if_pos (by decide : ((100 : Int) > 0 && (2 : Int) > 0) = true)]
    rw [if_neg (by simp [hcur])]
    rw [hed]
    rw [show ((2 : Int) * 100).toNat = 200 from rfl, skip_loop_exh, hdrop]
  have hb : get_metadata_body env (_parse_username username) 100 2 media_type
      = .error (valueError ERROR_MSG_ACCOUNT_NOT_FOUND) := by
    unfold get_metadata_body
    rw [hinit]
    dsimp only
    rw [hg]
    dsimp only
    rw [hsk]
    dsimp only
    rw [hed]
    rw [show (if (100 : Int) > 0 then some ((100 : Int)).toNat else none) = some 100 from rfl]
    rw [show fetch_loop env.now media_type (some 100) .exhausted [] init_fetch_st
          = .ok init_fetch_st from rfl]
    rfl
  unfold get_metadata
  dsimp only
  rw [if_pos hpat, hb]
  dsimp only
  rw [show classify_boundary (valueError ERROR_MSG_ACCOUNT_NOT_FOUND)
        = .ok ERROR_MSG_ACCOUNT_NOT_FOUND from rfl]

/-- C2 witness: a concrete two-item stream with batch 100 and page 2. -/
theorem skip_past_end_amended_witness :
    get_metadata env_two "user" "tok" "timeline" 100 2 "all" false
      = .ok (TimelineResult.error_body ERROR_MSG_ACCOUNT_NOT_FOUND) :=
  skip_past_end_amended env_two "user" "tok" "timeline" "all" false user_plain
    rfl rfl rfl rfl rfl rfl (by decide)

/-- C3 counterexample: with batch_size 1, page 1, a one-item stream and a
truthy cursor already on the extractor, the returned page still contains
the first stream item — no skip of page times batch_size items happened;
had one item been skipped, the one-item stream would have yielded zero
entries. -/
theorem cursor_bypasses_skip :
    tl_new_entries (get_metadata env_cursor "user" "tok" "timeline" 1 1 "all" false) = some 1 ∧
    env_cursor.stream.length = 1 ∧
    cursor_truthy env_cursor.cursor_at_skip = true := ⟨rfl, rfl, rfl⟩

/-- C3 amended: with positive batch_size and page, the engine discards
exactly page times batch_size items from the fresh iterator before
fetching only when no truthy cursor token is available at that point;
with a truthy cursor available the skip is omitted entirely and fetching
starts at the beginning of the stream. -/
theorem skip_conditional_on_cursor (env : Env) (batch_size page : Int)
    (hbs : 0 < batch_size) (hp : 0 < page) :
    (cursor_truthy env.cursor_at_skip = true → skip_phase env batch_size page = .ok env.stream) ∧
    (cursor_truthy env.cursor_at_skip = false → env.stream_end = .exhausted →
      skip_phase env batch_size page = .ok (env.stream.drop (page * batch_size).toNat)) := by
  have hcond : (batch_size > 0 && page > 0) = true := by
    simp only [Bool.and_eq_true, decide_eq_true_eq]
    exact ⟨hbs, hp⟩
  constructor
  · intro hc
    unfold skip_phase
    rw [if_pos hcond, if_pos hc]
  · intro hc hed
    unfold skip_phase
    rw [if_pos hcond, if_neg (by simp [hc]), hed, skip_loop_exh]

/-- C3 witness: with no cursor, one page of one item is skipped. -/
theorem skip_conditional_on_cursor_witness :
    skip_phase env_two 1 1 = .ok (env_two.stream.drop ((1 : Int) * 1).toNat) :=
  (skip_conditional_on_cursor env_two 1 1 (by decide) (by decide)).2 rfl rfl

/-- C4: in every successful get_metadata call, has_more is true exactly
when batch_size is positive and the number of items the fetch phase
consumed (the processed slice after the skip) equals batch_size; it is
false whenever batch_size is not positive, and for positive batch_size
the count equals batch_size exactly when the post-skip stream still held
at least batch_size items (the cap was reached rather than natural
exhaustion). -/
theorem has_more_characterization (env : Env) (username auth_token timeline_type : String)
    (batch_size page : Int) (media_type : String) (retweets : Bool) (s : TimelineSuccess)
    (h : get_metadata env username auth_token timeline_type batch_size page media_type retweets
      = .ok (TimelineResult.success s)) :
    (s.metadata.has_more = true ↔
      0 < batch_size ∧ ((processed_slice env batch_size page).length : Int) = batch_size) ∧
    (batch_size ≤ 0 → s.metadata.has_more = false) ∧
    (0 < batch_size →
      (((processed_slice env batch_size page).length : Int) = batch_size ↔
        batch_size.toNat ≤ (after_skip env batch_size page).length)) := by
  have hb := get_metadata_success_inv env username auth_token timeline_type
    batch_size page media_type retweets s h
  obtain ⟨-, -, hm, -, -⟩ := get_metadata_body_ok env _ batch_size page media_type s hb
  refine ⟨?_, ?_, ?_⟩
  · rw [hm]
    simp [Bool.and_eq_true, decide_eq_true_eq, beq_iff_eq]
  · intro hle
    rw [hm, decide_eq_false (by omega : ¬batch_size > 0)]
    simp
  · intro hpos
    have hbn : ((batch_size.toNat : Int)) = batch_size := Int.toNat_of_nonneg (le_of_lt hpos)
    have hps : processed_slice env batch_size page
        = (after_skip env batch_size page).take batch_size.toNat := by
      unfold processed_slice fetch_cap
      rw [if_pos hpos]
      rfl
    rw [hps, List.length_take]
    by_cases hcase : batch_size.toNat ≤ (after_skip env batch_size page).length
    · rw [Nat.min_eq_left hcase]
      exact ⟨fun _ => hcase, fun _ => hbn⟩
    · push_neg at hcase
      rw [Nat.min_eq_right (le_of_lt hcase)]
      constructor
      · intro he
        exfalso
        omega
      · intro hle2
        omega

/-- C4 witness: a one-item stream with batch_size 1 reaches the cap, so
has_more is true. -/
theorem has_more_characterization_witness :
    (c4_success.metadata.has_more = true ↔
      0 < (1 : Int) ∧ ((processed_slice env_one 1 0).length : Int) = 1) ∧
    ((1 : Int) ≤ 0 → c4_success.metadata.has_more = false) ∧
    (0 < (1 : Int) →
      (((processed_slice env_one 1 0).length : Int) = 1 ↔
        (1 : Int).toNat ≤ (after_skip env_one 1 0).length)) :=
  has_more_characterization env_one "user" "tok" "timeline" 1 0 "all" false c4_success rfl

/-- C5 counterexample: an item whose URL is on neither media domain
passes the media-type filter under filter all, yet it is not counted in
total_urls — total_urls is 0 while the single stream item passes
_should_include_media. -/
theorem filter_passing_item_not_counted :
    tl_total_urls (get_metadata env_offsite "user" "tok" "timeline" 0 0 "all" false) = some 0 ∧
    _should_include_media "https://example.com/a.jpg" tweet_img "all" = true ∧
    env_offsite.stream = [Item.tuple3 "https://example.com/a.jpg" tweet_img] := ⟨rfl, rfl, rfl⟩

/-- C5 amended: in every successful result, total_urls of the timeline
path counts exactly the processed items that are on a media domain AND
pass the media-type filter, and total_urls of the date-range path counts
exactly the stream items on a media domain (no media-type filter there) —
neither equals the raw count of items seen. -/
theorem total_urls_characterization (env : Env) (username auth_token timeline_type : String)
    (batch_size page : Int) (media_type : String) (retweets : Bool)
    (date_start date_end media_filter : String) (s : TimelineSuccess) (s2 : SearchSuccess) :
    (get_metadata env username auth_token timeline_type batch_size page media_type retweets
        = .ok (TimelineResult.success s) →
      s.total_urls = List.countP (passes_filter media_type) (processed_slice env batch_size page)) ∧
    (get_metadata_by_date env username auth_token date_start date_end media_filter
        = .ok (SearchResult.success s2) →
      s2.total_urls = List.countP domain_pass env.stream) := by
  constructor
  · intro h
    have hb := get_metadata_success_inv env username auth_token timeline_type
      batch_size page media_type retweets s h
    exact (get_metadata_body_ok env _ batch_size page media_type s hb).1
  · intro h
    have hb := get_metadata_by_date_success_inv env username auth_token
      date_start date_end media_filter s2 h
    exact (by_date_body_ok env _ _ date_start date_end s2 hb).1

/-- C5 witness: both paths on a concrete one-item media stream. -/
theorem total_urls_characterization_witness :
    c5_tl_success.total_urls = List.countP (passes_filter "all") (processed_slice env_one 0 0) ∧
    c5_bd_success.total_urls = List.countP domain_pass env_one.stream :=
  ⟨(total_urls_characterization env_one "user" "tok" "timeline" 0 0 "all" false
      "2024-01-01" "2024-12-31" "filter:media" c5_tl_success c5_bd_success).1 rfl,
   (total_urls_characterization env_one "user" "tok" "timeline" 0 0 "all" false
      "2024-01-01" "2024-12-31" "filter:media" c5_tl_success c5_bd_success).2 rfl⟩

-- ===== username resolver lemmas =====

theorem handle_char_toLower (c : Char) (h : is_handle_char c = true) : Char.toLower c = c := by
  unfold is_handle_char at h
  unfold Char.toLower
  simp only [Bool.or_eq_true, Bool.and_eq_true, decide_eq_true_eq, beq_iff_eq] at h
  rcases h with (⟨h1, h2⟩ | ⟨h1, h2⟩) | h3
  · rw [if_neg (by omega)]
  · rw [if_neg (by omega)]
  · subst h3
    rfl

theorem handle_char_ne (c d : Char) (h : is_handle_char c = true)
    (hd : is_handle_char d = false) : c ≠ d := by
  intro he
  rw [he] at h
  rw [h] at hd
  cases hd

theorem map_toLower_handle (l : List Char) (h : ∀ c ∈ l, is_handle_char c = true) :
    l.map Char.toLower = l := by
  induction l with
  | nil => rfl
  | cons a t ih =>
    simp only [List.map_cons]
    rw [handle_char_toLower a (h a (by simp)), ih (fun c hc => h c (by simp [hc]))]

theorem variant_not_ws (c : Char) (hc : is_handle_char (Char.toLower c) = true) :
    py_ws c = false := by
  cases hw : py_ws c with
  | false => rfl
  | true =>
    exfalso
    unfold py_ws at hw
    simp only [Bool.or_eq_true, beq_iff_eq] at hw
    rcases hw with ((((h | h) | h) | h) | h) | h <;> subst h <;> exact absurd hc (by decide)

theorem variant_not_special (c : Char) (hc : is_handle_char (Char.toLower c) = true) :
    url_special c = false := by
  cases hw : url_special c with
  | false => rfl
  | true =>
    exfalso
    unfold url_special at hw
    simp only [Bool.or_eq_true, beq_iff_eq] at hw
    rcases hw with (h | h) | h <;> subst h <;> exact absurd hc (by decide)

theorem variant_not_at (c : Char) (hc : is_handle_char (Char.toLower c) = true) :
    (c == '@') = false := by
  cases hw : c == '@' with
  | false => rfl
  | true =>
    exfalso
    rw [beq_iff_eq] at hw
    subst hw
    exact absurd hc (by decide)

theorem variant_toLower_ne (c d : Char) (hc : is_handle_char (Char.toLower c) = true)
    (hd : is_handle_char d = false) : Char.toLower c ≠ d :=
  handle_char_ne (Char.toLower c) d hc hd

theorem matchCI_eq_some (lit : List Char) :
    ∀ (s r : List Char), matchCI lit s = some r →
      (s.take lit.length).map Char.toLower = lit ∧ r = s.drop lit.length := by
  induction lit with
  | nil =>
    intro s r h
    simp only [matchCI] at h
    simp [← Option.some.inj h]
  | cons p ps ih =>
    intro s r h
    cases s with
    | nil => simp [matchCI] at h
    | cons c cs =>
      simp only [matchCI] at h
      by_cases hcl : (Char.toLower c == p) = true
      · rw [if_pos hcl] at h
        obtain ⟨h1, h2⟩ := ih cs r h
        rw [beq_iff_eq] at hcl
        simp [List.take_succ_cons, List.drop_succ_cons, hcl, h1, h2]
      · rw [if_neg hcl] at h
        cases h

theorem matchCI_none_of_missing (lit s : List Char) (d : Char) (hd : d ∈ lit)
    (hs : ∀ c ∈ s, Char.toLower c ≠ d) : matchCI lit s = none := by
  cases hm : matchCI lit s with
  | none => rfl
  | some r =>
    exfalso
    obtain ⟨h1, -⟩ := matchCI_eq_some lit s r hm
    rw [← h1] at hd
    obtain ⟨c, hc1, hc2⟩ := List.mem_map.mp hd
    exact hs c (List.take_subset _ _ hc1) hc2

theorem match_scheme_id (s : List Char) (hs : ∀ c ∈ s, Char.toLower c ≠ ':') :
    match_scheme s = s := by
  unfold match_scheme
  cases h4 : matchCI ['h', 't', 't', 'p'] s with
  | none => rfl
  | some r1 =>
    have hr1 : ∀ c ∈ r1, Char.toLower c ≠ ':' := by
      intro c hc
      apply hs
      have := (matchCI_eq_some _ s r1 h4).2
      rw [this] at hc
      exact List.drop_subset _ _ hc
    dsimp only
    cases r1 with
    | nil =>
      rw [matchCI_none_of_missing [':', '/', '/'] [] ':' (by simp) (by simp)]
    | cons c cs =>
      dsimp only
      by_cases hcl : (Char.toLower c == 's') = true
      · rw [if_pos hcl]
        rw [matchCI_none_of_missing [':', '/', '/'] cs ':' (by simp)
          (fun c2 hc2 => hr1 c2 (by simp [hc2]))]
      · rw [if_neg hcl]
        rw [matchCI_none_of_missing [':', '/', '/'] (c :: cs) ':' (by simp) hr1]

theorem match_www_id (s : List Char) (hs : ∀ c ∈ s, Char.toLower c ≠ '.') :
    match_www s = s := by
  unfold match_www matchOpt
  rw [matchCI_none_of_missing ['w', 'w', 'w', '.'] s '.' (by simp) hs]

theorem match_domain_none (s : List Char) (hs : ∀ c ∈ s, Char.toLower c ≠ '.') :
    match_domain s = none := by
  unfold match_domain
  rw [matchCI_none_of_missing ['x', '.', 'c', 'o', 'm', '/'] s '.' (by simp) hs,
    matchCI_none_of_missing ['t', 'w', 'i', 't', 't', 'e', 'r', '.', 'c', 'o', 'm', '/'] s '.'
      (by simp) hs]

theorem match_url_1_none (s : List Char) (hdot : ∀ c ∈ s, Char.toLower c ≠ '.')
    (hcolon : ∀ c ∈ s, Char.toLower c ≠ ':') : match_url_1 s = none := by
  unfold match_url_1
  rw [match_scheme_id s hcolon, match_www_id s hdot, match_domain_none s hdot]

theorem match_url_2_none (s : List Char) (hdot : ∀ c ∈ s, Char.toLower c ≠ '.')
    (hcolon : ∀ c ∈ s, Char.toLower c ≠ ':') : match_url_2 s = none := by
  unfold match_url_2
  rw [match_scheme_id s hcolon, match_www_id s hdot, match_domain_none s hdot]

theorem dropWhile_all_false {p : Char → Bool} (l : List Char)
    (h : ∀ c ∈ l, p c = false) : l.dropWhile p = l := by
  cases l with
  | nil => rfl
  | cons a t =>
    rw [List.dropWhile_cons, if_neg (by simp [h a (by simp)])]

theorem takeWhile_all_true {p : Char → Bool} (l : List Char)
    (h : ∀ c ∈ l, p c = true) : l.takeWhile p = l := by
  induction l with
  | nil => rfl
  | cons a t ih =>
    rw [List.takeWhile_cons, if_pos (h a (by simp)), ih (fun c hc => h c (by simp [hc]))]

theorem takeWhile_append_stop {p : Char → Bool} (l1 : List Char) (c2 : Char) (l2 : List Char)
    (h1 : ∀ c ∈ l1, p c = true) (h2 : p c2 = false) :
    (l1 ++ c2 :: l2).takeWhile p = l1 := by
  induction l1 with
  | nil => simp [List.takeWhile_cons, h2]
  | cons a t ih =>
    simp only [List.cons_append, List.takeWhile_cons, if_pos (h1 a (by simp))]
    rw [ih (fun c hc => h1 c (by simp [hc]))]

theorem py_strip_eq (s : String) (h : ∀ c ∈ s.data, py_ws c = false) : py_strip s = s := by
  unfold py_strip
  rw [dropWhile_all_false s.data h,
    dropWhile_all_false s.data.reverse (fun c hc => h c (List.mem_reverse.mp hc)),
    List.reverse_reverse]

theorem group_after_all (l : List Char) (hne : l ≠ [])
    (h : ∀ c ∈ l, url_special c = false) : group_after l = some l := by
  unfold group_after
  rw [takeWhile_all_true l (fun c hc => by simp [h c hc])]
  simp [hne]

theorem group_after_append (l1 : List Char) (l2 : List Char) (hne : l1 ≠ [])
    (h : ∀ c ∈ l1, url_special c = false) :
    group_after (l1 ++ '/' :: l2) = some l1 := by
  unfold group_after
  rw [takeWhile_append_stop l1 '/' l2 (fun c hc => by simp [h c hc]) (by decide)]
  simp [hne]

theorem variant_chars (h v : String) (hchars : ∀ c ∈ h.data, is_handle_char c = true)
    (hv : v.data.map Char.toLower = h.data) :
    ∀ c ∈ v.data, is_handle_char (Char.toLower c) = true := by
  intro c hc
  apply hchars
  rw [← hv]
  exact List.mem_map_of_mem _ hc

theorem variant_ne_nil (h v : String) (hne : h.data ≠ [])
    (hv : v.data.map Char.toLower = h.data) : v.data ≠ [] := by
  intro hnil
  rw [hnil] at hv
  simp only [List.map_nil] at hv
  exact hne hv.symm

theorem finish_variant (h v : String) (hne : h.data ≠ [])
    (hchars : ∀ c ∈ h.data, is_handle_char c = true)
    (hv : v.data.map Char.toLower = h.data) : finish_username v.data = h := by
  have hvc := variant_chars h v hchars hv
  unfold finish_username lstrip_char
  rw [dropWhile_all_false v.data (fun c hc => variant_not_at c (hvc c hc)), hv]

theorem id_start_false (l : List Char)
    (hl : ∀ c ∈ l, is_handle_char (Char.toLower c) = true) :
    chars_start ['i', 'd', ':'] l = false := by
  rcases l with _ | ⟨a, _ | ⟨b, _ | ⟨c3, t⟩⟩⟩
  · rfl
  · simp [chars_start]
  · simp [chars_start]
  · have h3 : (':' == c3) = false := by
      cases hb : (':' == c3) with
      | false => rfl
      | true =>
        exfalso
        rw [beq_iff_eq] at hb
        have := hl c3 (by simp)
        rw [← hb] at this
        exact absurd this (by decide)
    simp [chars_start, h3]

theorem parse_handle_variant (h v : String) (hne : h.data ≠ [])
    (hchars : ∀ c ∈ h.data, is_handle_char c = true)
    (hv : v.data.map Char.toLower = h.data) : _parse_username v = h := by
  have hvc := variant_chars h v hchars hv
  have hdot : ∀ c ∈ v.data, Char.toLower c ≠ '.' :=
    fun c hc => variant_toLower_ne c '.' (hvc c hc) (by decide)
  have hcolon : ∀ c ∈ v.data, Char.toLower c ≠ ':' :=
    fun c hc => variant_toLower_ne c ':' (hvc c hc) (by decide)
  have hid : py_startswith v ['i', 'd', ':'] = false := id_start_false v.data hvc
  have hstrip : py_strip v = v := py_strip_eq v (fun c hc => variant_not_ws c (hvc c hc))
  unfold _parse_username
  rw [if_neg (by simp [hid])]
  rw [hstrip]
  dsimp only
  rw [match_url_1_none v.data hdot hcolon, match_url_2_none v.data hdot hcolon]
  exact finish_variant h v hne hchars hv

theorem parse_url_form (h v s : String) (hne : h.data ≠ [])
    (hchars : ∀ c ∈ h.data, is_handle_char c = true)
    (hv : v.data.map Char.toLower = h.data)
    (hid : py_startswith s ['i', 'd', ':'] = false)
    (hstrip : py_strip s = s)
    (hmu : match_url_1 s.data = some v.data) :
    _parse_username s = h := by
  unfold _parse_username
  rw [if_neg (by simp [hid])]
  rw [hstrip]
  dsimp only
  rw [hmu]
  exact finish_variant h v hne hchars hv

theorem parse_at_variant (h v : String) (hne : h.data ≠ [])
    (hchars : ∀ c ∈ h.data, is_handle_char c = true)
    (hv : v.data.map Char.toLower = h.data) : _parse_username ("@" ++ v) = h := by
  have hvc := variant_chars h v hchars hv
  have hdata : ("@" ++ v).data = '@' :: v.data := rfl
  have hid : py_startswith ("@" ++ v) ['i', 'd', ':'] = false := rfl
  have hstrip : py_strip ("@" ++ v) = "@" ++ v := by
    apply py_strip_eq
    rw [hdata]
    intro c hc
    rcases List.mem_cons.mp hc with h1 | h1
    · subst h1; decide
    · exact variant_not_ws c (hvc c h1)
  have hdot : ∀ c ∈ ('@' :: v.data), Char.toLower c ≠ '.' := by
    intro c hc
    rcases List.mem_cons.mp hc with h1 | h1
    · subst h1; decide
    · exact variant_toLower_ne c '.' (hvc c h1) (by decide)
  have hcolon : ∀ c ∈ ('@' :: v.data), Char.toLower c ≠ ':' := by
    intro c hc
    rcases List.mem_cons.mp hc with h1 | h1
    · subst h1; decide
    · exact variant_toLower_ne c ':' (hvc c h1) (by decide)
  unfold _parse_username
  rw [if_neg (by simp [hid])]
  rw [hstrip]
  dsimp only
  rw [hdata, match_url_1_none _ hdot hcolon, match_url_2_none _ hdot hcolon]
  unfold finish_username lstrip_char
  rw [List.dropWhile_cons, if_pos (by decide : ('@' == '@') = true),
    dropWhile_all_false v.data (fun c hc => variant_not_at c (hvc c hc)), hv]

/-- C6: the username resolver maps a plain handle, its at-prefixed form,
any upper or mixed-case variant, an x.com profile URL, a twitter.com
status URL, and scheme, www and domain case variations of those URLs all
to the same canonical lowercase handle. -/
theorem username_resolver_canonical (h v : String) (hne : h.data ≠ [])
    (hchars : ∀ c ∈ h.data, is_handle_char c = true)
    (hv : v.data.map Char.toLower = h.data) :
    _parse_username h = h ∧
    _parse_username v = h ∧
    _parse_username ("@" ++ v) = h ∧
    _parse_username ("https://x.com/" ++ v) = h ∧
    _parse_username ("https://twitter.com/" ++ v ++ "/status/1") = h ∧
    _parse_username ("HTTPS://WWW.X.COM/" ++ v) = h ∧
    _parse_username ("http://www.Twitter.Com/" ++ v ++ "/status/1") = h := by
  have hvc := variant_chars h v hchars hv
  have hvne : v.data ≠ [] := variant_ne_nil h v hne hv
  have hspec : ∀ c ∈ v.data, url_special c = false :=
    fun c hc => variant_not_special c (hvc c hc)
  have hvws : ∀ c ∈ v.data, py_ws c = false :=
    fun c hc => variant_not_ws c (hvc c hc)
  refine ⟨?_, ?_, ?_, ?_, ?_, ?_, ?_⟩
  · exact parse_handle_variant h h hne hchars (map_toLower_handle h.data hchars)
  · exact parse_handle_variant h v hne hchars hv
  · exact parse_at_variant h v hne hchars hv
  · refine parse_url_form h v _ hne hchars hv rfl ?_ ?_
    · apply py_strip_eq
      rw [show ("https://x.com/" ++ v).data = ("https://x.com/").data ++ v.data from rfl]
      intro c hc
      rcases List.mem_append.mp hc with h1 | h1
      · exact (by decide : ∀ c ∈ ("https://x.com/").data, py_ws c = false) c h1
      · exact hvws c h1
    · have hmu : match_url_1 ("https://x.com/" ++ v).data = group_after v.data := rfl
      rw [hmu, group_after_all v.data hvne hspec]
  · refine parse_url_form h v _ hne hchars hv rfl ?_ ?_
    · apply py_strip_eq
      rw [show ("https://twitter.com/" ++ v ++ "/status/1").data
            = ("https://twitter.com/").data ++ v.data ++ ("/status/1").data from rfl]
      intro c hc
      rcases List.mem_append.mp hc with h1 | h1
      · rcases List.mem_append.mp h1 with h2 | h2
        · exact (by decide : ∀ c ∈ ("https://twitter.com/").data, py_ws c = false) c h2
        · exact hvws c h2
      · exact (by decide : ∀ c ∈ ("/status/1").data, py_ws c = false) c h1
    · have hmu : match_url_1 ("https://twitter.com/" ++ v ++ "/status/1").data
          = group_after (v.data ++ '/' :: ("status/1").data) := rfl
      rw [hmu, group_after_append v.data ("status/1").data hvne hspec]
  · refine parse_url_form h v _ hne hchars hv rfl ?_ ?_
    · apply py_strip_eq
      rw [show ("HTTPS://WWW.X.COM/" ++ v).data = ("HTTPS://WWW.X.COM/").data ++ v.data from rfl]
      intro c hc
      rcases List.mem_append.mp hc with h1 | h1
      · exact (by decide : ∀ c ∈ ("HTTPS://WWW.X.COM/").data, py_ws c = false) c h1
      · exact hvws c h1
    · have hmu : match_url_1 ("HTTPS://WWW.X.COM/" ++ v).data = group_after v.data := rfl
      rw [hmu, group_after_all v.data hvne hspec]
  · refine parse_url_form h v _ hne hchars hv rfl ?_ ?_
    · apply py_strip_eq
      rw [show ("http://www.Twitter.Com/" ++ v ++ "/status/1").data
            = ("http://www.Twitter.Com/").data ++ v.data ++ ("/status/1").data from rfl]
      intro c hc
      rcases List.mem_append.mp hc with h1 | h1
      · rcases List.mem_append.mp h1 with h2 | h2
        · exact (by decide : ∀ c ∈ ("http://www.Twitter.Com/").data, py_ws c = false) c h2
        · exact hvws c h2
      · exact (by decide : ∀ c ∈ ("/status/1").data, py_ws c = false) c h1
    · have hmu : match_url_1 ("http://www.Twitter.Com/" ++ v ++ "/status/1").data
          = group_after (v.data ++ '/' :: ("status/1").data) := rfl
      rw [hmu, group_after_append v.data ("status/1").data hvne hspec]

/-- C6 witness: the handle abc_1 under the mixed-case variant AbC_1. -/
theorem username_resolver_canonical_witness :
    _parse_username "AbC_1" = "abc_1" ∧
    _parse_username "@AbC_1" = "abc_1" ∧
    _parse_username "https://x.com/AbC_1" = "abc_1" ∧
    _parse_username "HTTPS://WWW.X.COM/AbC_1" = "abc_1" ∧
    _parse_username "https://twitter.com/AbC_1/status/1" = "abc_1" := by
  have hmain := username_resolver_canonical "abc_1" "AbC_1" (by decide) (by decide) (by decide)
  exact ⟨hmain.2.1, hmain.2.2.1, hmain.2.2.2.1, hmain.2.2.2.2.2.1, hmain.2.2.2.2.1⟩
